import Mathlib

/-!
Formal model of the fixed-capacity stack allocator in
`src/stack_allocator.hpp` and of the `StackVector` wrapper built on it.

The allocator owns a fixed buffer of `N` bytes and a cursor `m_offset`.
We model the buffer by its address (object identity, used by `operator==`)
and its byte contents, pointers by their byte offset from the start of the
buffer, and the source's 64-bit `size_type` arithmetic faithfully: the
byte count `n * sizeof(T)`, the capacity check, and the cursor update all
wrap modulo `2 ^ 64` exactly as the unsigned arithmetic of the source
does, and the `& ~(alignment - 1)` mask is kept as the 64-bit bitwise
operation of the source (its result is below `2 ^ 64`, so no further
reduction is needed on it).
-/

/-- State of one `StackAllocator` object: the address of its owned
`m_buffer` (each instance owns its own buffer, so the address identifies
the instance), the byte contents of the buffer, and the cursor `m_offset`. -/
structure Arena where
  bufAddr : Nat
  buf : Nat → Nat
  off : Nat

namespace StackAllocator

/-- Default constructor: initializes `m_offset(0)`; the object owns fresh
storage at address `addr` with indeterminate contents `b`. -/
def defaultCtor (addr : Nat) (b : Nat → Nat) : Arena :=
  ⟨addr, b, 0⟩

/-- Copy constructor `StackAllocator(const StackAllocator&)`: the member
initializer list is exactly `m_offset(0)`; the source is not read, and the
new object owns its own fresh buffer (at its own address `addr`, contents
indeterminate). -/
def copyCtor (_src : Arena) (addr : Nat) (b : Nat → Nat) : Arena :=
  ⟨addr, b, 0⟩

/-- Rebind copy constructor
`StackAllocator(const StackAllocator<U, N, AlignAccess>&)`: the member
initializer list is exactly `m_offset(0)`; the source is not read, and the
new object owns its own fresh buffer. -/
def rebindCtor (_src : Arena) (addr : Nat) (b : Nat → Nat) : Arena :=
  ⟨addr, b, 0⟩

/-- The `aligned_offset` computed at the top of `allocate`: when
`AlignAccess` is true the source computes
`(m_offset + alignment - 1) & ~(alignment - 1)` on the 64-bit `size_type`,
where `~(alignment - 1) = 2 ^ 64 - alignment`; otherwise the cursor is used
as is. -/
def alignedCursor (aa : Bool) (al off : Nat) : Nat :=
  if aa then (off + al - 1) &&& (2 ^ 64 - al) else off

/-- `allocate(n)` on a buffer of `N` bytes, for an element type of size
`sz` and alignment `al`, with alignment flag `aa` (the source locals
`aligned_offset` and `bytes_needed = n * sizeof(T)` are written inline,
with the `size_type` multiplication `n * sz`, the sum of the capacity
check, and the cursor update all reduced modulo `2 ^ 64` as the 64-bit
unsigned arithmetic of the source wraps).  Returns the allocated byte
region as `some (start, bytes)` — the returned pointer is
`buffer + start`, and `bytes` is the wrapped byte count the allocator
actually reserves — or `none` for the `nullptr` failure return, paired
with the allocator state after the call. -/
def allocate (N sz al : Nat) (aa : Bool) (s : Arena) (n : Nat) :
    Option (Nat × Nat) × Arena :=
  if n = 0 then (none, s)
  else if (alignedCursor aa al s.off + n * sz % 2 ^ 64) % 2 ^ 64 > N then
    (none, s)
  else (some (alignedCursor aa al s.off, n * sz % 2 ^ 64),
        { s with off := (alignedCursor aa al s.off + n * sz % 2 ^ 64) % 2 ^ 64 })

/-- `deallocate(p, n)` where the pointer `p` is `buffer + pOff`: the byte
count `bytes = n * sizeof(T)` is computed in `size_type`, wrapping modulo
`2 ^ 64`; space is reclaimed only when the pointer comparison
`p + bytes == buffer + m_offset` holds (exact address arithmetic on the
wrapped byte count), in which case the cursor rewinds to `p`'s offset;
otherwise the call changes nothing. -/
def deallocate (sz : Nat) (s : Arena) (pOff n : Nat) : Arena :=
  if pOff + n * sz % 2 ^ 64 = s.off then { s with off := pOff } else s

/-- `operator==`: true iff the two handles refer to the same buffer
(`&m_buffer == &other.m_buffer`). -/
def eqOp (a b : Arena) : Bool :=
  a.bufAddr == b.bufAddr

/-- One call on the allocator: `allocate(n)` or
`deallocate(buffer + pOff, n)`. -/
inductive AllocOp where
  | alloc (n : Nat)
  | dealloc (pOff : Nat) (n : Nat)

/-- Effect of one call on the allocator state. -/
def opStep (N sz al : Nat) (aa : Bool) (s : Arena) : AllocOp → Arena
  | .alloc n => (allocate N sz al aa s n).2
  | .dealloc p n => deallocate sz s p n

/-- Run a sequence of allocate/deallocate calls. -/
def runOps (N sz al : Nat) (aa : Bool) (s : Arena) : List AllocOp → Arena
  | [] => s
  | op :: rest => runOps N sz al aa (opStep N sz al aa s op) rest

/-- Run a sequence of `allocate` requests, collecting every successful
allocation's byte region `(start, bytes)` in order. -/
def runAllocs (N sz al : Nat) (aa : Bool) (s : Arena)
    (regions : List (Nat × Nat)) : List Nat → Arena × List (Nat × Nat)
  | [] => (s, regions)
  | n :: rest =>
    match allocate N sz al aa s n with
    | (some r, s2) => runAllocs N sz al aa s2 (regions ++ [r]) rest
    | (none, s2) => runAllocs N sz al aa s2 regions rest

/-- Two byte regions `(start, bytes)` do not overlap. -/
def RegionsDisjoint (r1 r2 : Nat × Nat) : Prop :=
  r1.1 + r1.2 ≤ r2.1 ∨ r2.1 + r2.2 ≤ r1.1

instance : DecidableRel RegionsDisjoint := by
  intro r1 r2
  unfold RegionsDisjoint
  infer_instance

/-- Every region of the list lies inside the first `N` bytes of the
buffer. -/
def RegionsWithin (regions : List (Nat × Nat)) (N : Nat) : Prop :=
  ∀ r ∈ regions, r.1 + r.2 ≤ N

instance (regions : List (Nat × Nat)) (N : Nat) :
    Decidable (RegionsWithin regions N) := by
  unfold RegionsWithin
  infer_instance

/-- An arbitrary fixed content function, standing in for the indeterminate
bytes of a freshly created buffer in concrete instantiations. -/
def bzero : Nat → Nat :=
  fun _ => 0

end StackAllocator

namespace StackVector

open StackAllocator

/-- Modelled from the spec: the state of the `std::vector` inside a
`StackVector<T, N>` — `std::vector` itself is external to this repository,
so its behaviour is taken from §4.2 of the spec.  The vector draws all
storage from the embedded `StackAllocator` (a buffer of `N * sizeof(T)`
bytes with `AlignAccess = false`, per `StackVector::allocator_type`) and
keeps the offset of its element storage block, its capacity and its
length. -/
structure VecS where
  arena : Arena
  dataOff : Nat
  cap : Nat
  len : Nat

/-- Modelled from the spec: the `StackVector` constructor value-initializes
the allocator and calls `m_vec.reserve(N)`, which acquires storage for `N`
elements from the allocator. -/
def vecInit (addr : Nat) (b : Nat → Nat) (N sz : Nat) : VecS :=
  match allocate (N * sz) sz 1 false (defaultCtor addr b) N with
  | (some (st, _), a2) => ⟨a2, st, N, 0⟩
  | (none, a2) => ⟨a2, 0, 0, 0⟩

/-- Modelled from the spec: `push_back` forwarding to the underlying
`std::vector`.  With spare capacity the element is constructed in place and
the length grows by one; at full capacity the vector requests a strictly
larger block (`cap + max cap 1`, the doubling growth of the underlying
vector) from the allocator, relocating its storage on success, and on
allocation failure the push fails deterministically (`CapacityExceeded`,
§4.2/§7 of the spec) with the sequence unchanged. -/
def vecPush (N sz : Nat) (v : VecS) : Bool × VecS :=
  if v.len < v.cap then (true, { v with len := v.len + 1 })
  else
    match allocate (N * sz) sz 1 false v.arena (v.cap + max v.cap 1) with
    | (some (st, _), a2) => (true, ⟨a2, st, v.cap + max v.cap 1, v.len + 1⟩)
    | (none, _) => (false, v)

/-- Iterated `push_back`, starting from a freshly constructed
`StackVector`. -/
def vecPushes (addr : Nat) (b : Nat → Nat) (N sz : Nat) : Nat → VecS
  | 0 => vecInit addr b N sz
  | j + 1 => (vecPush N sz (vecPushes addr b N sz j)).2

/-- Address (offset into the arena buffer) of element `i` of the vector. -/
def elemAddr (sz : Nat) (v : VecS) (i : Nat) : Nat :=
  v.dataOff + i * sz

end StackVector

namespace StackAllocator

/-- The bit trick `y & ~(2 ^ k - 1)` (as 64-bit arithmetic,
`~(2 ^ k - 1) = 2 ^ 64 - 2 ^ k`) clears the low `k` bits of `y`. -/
lemma and_high_mask (y k : Nat) (hk : k ≤ 64) (hy : y < 2 ^ 64) :
    y &&& (2 ^ 64 - 2 ^ k) = 2 ^ k * (y / 2 ^ k) := by
  have h1 : 2 ^ k * 2 ^ (64 - k) = 2 ^ 64 := by
    rw [← pow_add]
    congr 1
    omega
  have hmask : 2 ^ 64 - 2 ^ k = 2 ^ k * (2 ^ (64 - k) - 1) := by
    rw [Nat.mul_sub_one, h1]
  rw [hmask]
  apply Nat.eq_of_testBit_eq
  intro i
  rw [Nat.testBit_land, Nat.testBit_mul_pow_two, Nat.testBit_mul_pow_two]
  by_cases hik : k ≤ i
  · have hrw : Nat.testBit (y / 2 ^ k) (i - k) = Nat.testBit y i := by
      rw [← Nat.shiftRight_eq_div_pow, Nat.testBit_shiftRight]
      congr 1
      omega
    by_cases hi64 : i < 64
    · have hbit : Nat.testBit (2 ^ (64 - k) - 1) (i - k) = true := by
        rw [Nat.testBit_two_pow_sub_one]
        simp only [decide_eq_true_eq]
        omega
      simp [hik, hbit, hrw, Bool.and_comm]
    · have hylt : y < 2 ^ i := by
        calc y < 2 ^ 64 := hy
        _ ≤ 2 ^ i := Nat.pow_le_pow_right (by omega) (by omega)
      have hybit : Nat.testBit y i = false := Nat.testBit_eq_false_of_lt hylt
      simp [hik, hrw, hybit]
  · simp [hik]

/-- With a power-of-two alignment and no 64-bit overflow, the aligned
cursor is at least the cursor: alignment rounding never moves the cursor
backwards. -/
lemma le_alignedCursor (aa : Bool) (k al off : Nat) (hal : al = 2 ^ k)
    (hoff : off + al ≤ 2 ^ 64) : off ≤ alignedCursor aa al off := by
  cases aa with
  | false => simp [alignedCursor]
  | true =>
    subst hal
    have hone : (1 : Nat) ≤ 2 ^ k := Nat.one_le_two_pow
    have hk : k ≤ 64 := by
      by_contra hcon
      have : 2 ^ 64 < 2 ^ k := Nat.pow_lt_pow_right (by omega) (by omega)
      omega
    have hy : off + 2 ^ k - 1 < 2 ^ 64 := by omega
    simp only [alignedCursor, if_pos]
    rw [and_high_mask _ k hk hy]
    have hmod : (off + 2 ^ k - 1) % 2 ^ k < 2 ^ k :=
      Nat.mod_lt _ (Nat.two_pow_pos k)
    have hdm := Nat.div_add_mod (off + 2 ^ k - 1) (2 ^ k)
    omega

/-- Claim C10: copy-constructing a StackAllocator, also through the
converting (rebind) constructor, always yields an allocator whose cursor is
0 and whose buffer is its own fresh storage at its own address `addr`,
identical to a default-constructed allocator regardless of the source's
state; hence its subsequent allocations coincide with those of a brand-new
empty arena and are independent of the source's. -/
theorem c10_copy_is_fresh_arena (src : Arena) (addr : Nat) (b : Nat → Nat)
    (N sz al : Nat) (aa : Bool) (reqs : List Nat) :
    copyCtor src addr b = defaultCtor addr b ∧
    rebindCtor src addr b = defaultCtor addr b ∧
    (copyCtor src addr b).off = 0 ∧
    (copyCtor src addr b).bufAddr = addr ∧
    runAllocs N sz al aa (copyCtor src addr b) [] reqs =
      runAllocs N sz al aa (defaultCtor addr b) [] reqs :=
  ⟨rfl, rfl, rfl, rfl, rfl⟩

/-- Claim C5 (counterexample): rebinding does not share state.  From a
source allocator whose cursor is 12 (after allocating three 4-byte ints in
one call), the rebind constructor produces an allocator with cursor 0 and
its own buffer (here at fresh address 1, distinct from the source's
address 0), so it shares neither the cursor state nor the buffer of the
original. -/
theorem c5_counterexample :
    ((allocate 24 4 4 true (defaultCtor 0 bzero) 3).2).off = 12 ∧
    (rebindCtor (allocate 24 4 4 true (defaultCtor 0 bzero) 3).2 1 bzero).off = 0 ∧
    (rebindCtor (allocate 24 4 4 true (defaultCtor 0 bzero) 3).2 1 bzero).bufAddr ≠
      ((allocate 24 4 4 true (defaultCtor 0 bzero) 3).2).bufAddr := by
  refine ⟨by decide, rfl, by decide⟩

/-- Claim C5 (amended): constructing a `StackAllocator<U, N, AlignAccess>`
from a `StackAllocator<T, N, AlignAccess>` produces a new allocator with
its own fresh buffer and cursor 0 — a brand-new empty arena that shares no
state with the original. -/
theorem c5_amended_rebind_is_fresh (src : Arena) (addr : Nat)
    (b : Nat → Nat) :
    rebindCtor src addr b = defaultCtor addr b ∧
    (rebindCtor src addr b).off = 0 ∧
    (rebindCtor src addr b).bufAddr = addr :=
  ⟨rfl, rfl, rfl⟩

/-- Claim C6 (counterexample): a handle copy-constructed from an allocator
instance owns its own fresh buffer (here at address 1) and therefore
compares unequal to the very instance it was constructed from, refuting
"two handles constructed from (or rebound from) the same allocator instance
compare equal". -/
theorem c6_counterexample :
    eqOp (copyCtor (defaultCtor 0 bzero) 1 bzero) (defaultCtor 0 bzero) =
      false := by
  decide

/-- Claim C6 (amended): `operator==` returns true iff the two handles
reference the same underlying buffer; since every instance owns its own
buffer, an allocator compares equal to itself, while a handle
copy-constructed or rebind-constructed from an instance (owning a fresh
buffer at a distinct address) compares unequal to it, and handles over two
distinct allocator instances never compare equal. -/
theorem c6_amended_equality_is_buffer_identity (a c : Arena) (addr : Nat)
    (nb : Nat → Nat) (h : addr ≠ a.bufAddr) :
    (eqOp a c = true ↔ a.bufAddr = c.bufAddr) ∧
    eqOp a a = true ∧
    eqOp (copyCtor a addr nb) a = false ∧
    eqOp (rebindCtor a addr nb) a = false := by
  refine ⟨?_, ?_, ?_, ?_⟩
  · simp [eqOp]
  · simp [eqOp]
  · simpa [eqOp, copyCtor] using h
  · simpa [eqOp, rebindCtor] using h

/-- Claim C6 (amended) witness at concrete handles: a default-constructed
allocator at address 0 versus a copy of it at fresh address 1. -/
theorem c6_amended_witness :
    (eqOp (defaultCtor 0 bzero) (defaultCtor 2 bzero) = true ↔
      (defaultCtor 0 bzero).bufAddr = (defaultCtor 2 bzero).bufAddr) ∧
    eqOp (defaultCtor 0 bzero) (defaultCtor 0 bzero) = true ∧
    eqOp (copyCtor (defaultCtor 0 bzero) 1 bzero) (defaultCtor 0 bzero) =
      false ∧
    eqOp (rebindCtor (defaultCtor 0 bzero) 1 bzero) (defaultCtor 0 bzero) =
      false :=
  c6_amended_equality_is_buffer_identity (defaultCtor 0 bzero)
    (defaultCtor 2 bzero) 1 bzero (by decide)

/-- Claim C7 (counterexample): at cursor 12 with 4-byte elements, the call
`deallocate(buffer + 8, 2 ^ 62 + 1)` is not a tail match under the claim's
exact arithmetic (`8 + (2 ^ 62 + 1) * 4` is far from 12), yet the source's
`size_type` byte count wraps to 4, the comparison
`p + bytes == buffer + m_offset` holds, and the cursor rewinds to 8 — not
the no-op the claim asserts for every non-matching call. -/
theorem c7_counterexample :
    8 + (2 ^ 62 + 1) * 4 ≠ (12 : Nat) ∧
    (deallocate 4 ⟨0, bzero, 12⟩ 8 (2 ^ 62 + 1)).off = 8 := by
  decide

/-- Claim C7 (amended): `deallocate(p, n)` computes the freed byte count
`n * sizeof(T)` in 64-bit `size_type` arithmetic; it reclaims space iff
`p` plus that wrapped byte count equals `buffer + m_offset`, in which case
the cursor rewinds to `p`'s offset into the buffer with the buffer
contents untouched, and every other call is a no-op leaving the whole
state — cursor and buffer — unchanged.  For requests whose byte count does
not overflow (`n * sizeof(T) < 2 ^ 64`) this is exactly the claim's
condition `p + n * sizeof(T) = buffer + m_offset`. -/
theorem c7_deallocate_tail_only (sz : Nat) (s : Arena) (pOff n : Nat) :
    (pOff + n * sz % 2 ^ 64 = s.off →
      deallocate sz s pOff n = { s with off := pOff }) ∧
    (pOff + n * sz % 2 ^ 64 ≠ s.off → deallocate sz s pOff n = s) ∧
    (n * sz < 2 ^ 64 →
      (pOff + n * sz = s.off →
        deallocate sz s pOff n = { s with off := pOff }) ∧
      (pOff + n * sz ≠ s.off → deallocate sz s pOff n = s)) := by
  refine ⟨?_, ?_, ?_⟩
  · intro h
    unfold deallocate
    rw [if_pos h]
  · intro h
    unfold deallocate
    rw [if_neg h]
  · intro hlt
    have hmod : n * sz % 2 ^ 64 = n * sz := Nat.mod_eq_of_lt hlt
    constructor
    · intro h
      unfold deallocate
      rw [hmod, if_pos h]
    · intro h
      unfold deallocate
      rw [hmod, if_neg h]

/-- Claim C7 (amended) witness: at cursor 12 with 4-byte elements, freeing
one element at offset 8 (tail-matching) rewinds the cursor to 8; freeing
one element at offset 9 (not tail-matching, byte count not overflowing)
changes nothing. -/
theorem c7_witness :
    deallocate 4 ⟨0, bzero, 12⟩ 8 1 = ⟨0, bzero, 8⟩ ∧
    deallocate 4 ⟨0, bzero, 12⟩ 9 1 = ⟨0, bzero, 12⟩ :=
  ⟨(c7_deallocate_tail_only 4 ⟨0, bzero, 12⟩ 8 1).1 (by decide),
   ((c7_deallocate_tail_only 4 ⟨0, bzero, 12⟩ 9 1).2.2 (by decide)).2
     (by decide)⟩

/-- Claim C9: with `AlignAccess = false`, `allocate` performs no alignment
rounding: a fitting request of `n > 0` elements is placed exactly at the
current cursor, with zero padding.  The buffer capacity `N` is a C++
object size and hence below `2 ^ 64`, which keeps the fitting request's
`size_type` arithmetic from wrapping. -/
theorem c9_packed_mode_no_padding (N sz al : Nat) (s : Arena) (n : Nat)
    (hn : n ≠ 0) (hN64 : N < 2 ^ 64) (hfit : s.off + n * sz ≤ N) :
    allocate N sz al false s n =
      (some (s.off, n * sz), { s with off := s.off + n * sz }) := by
  have ha : alignedCursor false al s.off = s.off := rfl
  have hmod : n * sz % 2 ^ 64 = n * sz := Nat.mod_eq_of_lt (by omega)
  have hsum : (s.off + n * sz) % 2 ^ 64 = s.off + n * sz :=
    Nat.mod_eq_of_lt (by omega)
  unfold allocate
  rw [if_neg hn, ha, hmod, hsum, if_neg (Nat.not_lt.mpr hfit)]

/-- Claim C9 witness: three successive 1-byte allocations from a fresh
packed-mode allocator land at offsets 0, 1 and 2 exactly. -/
theorem c9_witness :
    allocate 8 1 1 false ⟨0, bzero, 0⟩ 1 = (some (0, 1), ⟨0, bzero, 1⟩) ∧
    allocate 8 1 1 false ⟨0, bzero, 1⟩ 1 = (some (1, 1), ⟨0, bzero, 2⟩) ∧
    allocate 8 1 1 false ⟨0, bzero, 2⟩ 1 = (some (2, 1), ⟨0, bzero, 3⟩) :=
  ⟨c9_packed_mode_no_padding 8 1 1 ⟨0, bzero, 0⟩ 1 (by decide) (by decide)
     (by decide),
   c9_packed_mode_no_padding 8 1 1 ⟨0, bzero, 1⟩ 1 (by decide) (by decide)
     (by decide),
   c9_packed_mode_no_padding 8 1 1 ⟨0, bzero, 2⟩ 1 (by decide) (by decide)
     (by decide)⟩

/-- Claim C3 (failing input): capacity 24 bytes, three prior aligned
allocations of one 4-byte int each land at offsets 0, 4 and 8 leaving the
cursor at 12, and the claim's own 16-byte fourth request does fail with
the cursor unchanged; but the request `allocate(2 ^ 62 - 1)` — whose byte
count `(2 ^ 62 - 1) * 4 = 2 ^ 64 - 4` exceeds the remaining capacity by
any mathematical reading, as the third conjunct states — wraps the
source's `size_type` capacity check (`12 + (2 ^ 64 - 4)` wraps to
`8 ≤ 24`), so the call succeeds and moves the cursor from 12 to 8 instead
of failing with the cursor unchanged. -/
theorem c3_wrap_request_succeeds :
    (runAllocs 24 4 4 true (defaultCtor 0 bzero) [] [1, 1, 1]).2 =
      [(0, 4), (4, 4), (8, 4)] ∧
    (runAllocs 24 4 4 true (defaultCtor 0 bzero) [] [1, 1, 1]).1.off = 12 ∧
    24 < alignedCursor true 4 12 + (2 ^ 62 - 1) * 4 ∧
    (allocate 24 4 4 true ⟨0, bzero, 12⟩ 4).1 = none ∧
    (allocate 24 4 4 true ⟨0, bzero, 12⟩ 4).2.off = 12 ∧
    (allocate 24 4 4 true ⟨0, bzero, 12⟩ (2 ^ 62 - 1)).1 =
      some (12, 2 ^ 64 - 4) ∧
    (allocate 24 4 4 true ⟨0, bzero, 12⟩ (2 ^ 62 - 1)).2.off = 8 := by
  decide

/-- One call never pushes the cursor past `N`: even with wrapping
arithmetic, a successful `allocate` stores exactly the (wrapped) sum the
capacity check admitted, and a tail-matching `deallocate` rewinds
downwards. -/
lemma opStep_off_le (N sz al : Nat) (aa : Bool) (s : Arena) (op : AllocOp)
    (hs : s.off ≤ N) : (opStep N sz al aa s op).off ≤ N := by
  cases op with
  | alloc n =>
    simp only [opStep]
    unfold allocate
    by_cases hn : n = 0
    · rw [if_pos hn]
      exact hs
    · rw [if_neg hn]
      by_cases hov :
          (alignedCursor aa al s.off + n * sz % 2 ^ 64) % 2 ^ 64 > N
      · rw [if_pos hov]
        exact hs
      · rw [if_neg hov]
        exact Nat.le_of_not_lt hov
  | dealloc p n =>
    simp only [opStep]
    unfold deallocate
    by_cases hp : p + n * sz % 2 ^ 64 = s.off
    · rw [if_pos hp]
      have hps : p ≤ s.off := by omega
      exact le_trans hps hs
    · rw [if_neg hp]
      exact hs

/-- The cursor stays within the buffer across any sequence of calls. -/
lemma runOps_off_le (N sz al : Nat) (aa : Bool) (s : Arena)
    (ops : List AllocOp) (hs : s.off ≤ N) :
    (runOps N sz al aa s ops).off ≤ N := by
  induction ops generalizing s with
  | nil => exact hs
  | cons op rest ih => exact ih _ (opStep_off_le N sz al aa s op hs)

/-- Claim C2 (failing input): on `StackAllocator<int, 24, true>` the call
sequence `allocate(3); allocate(2 ^ 62 - 1)` contains no `deallocate` at
all, yet the cursor moves 0 → 12 → 8: the second request's `size_type`
byte count `2 ^ 64 - 4` wraps the capacity check and the cursor update
(`12 + (2 ^ 64 - 4)` wraps to 8), so the cursor decreases on a plain
`allocate`, not after a tail-matching `deallocate`.  (The bound half of
the claim, `0 ≤ m_offset ≤ N` at all times, does hold: `runOps_off_le`.) -/
theorem c2_wrap_cursor_decreases :
    (runOps 24 4 4 true (defaultCtor 0 bzero) [AllocOp.alloc 3]).off = 12 ∧
    (runOps 24 4 4 true (defaultCtor 0 bzero)
        [AllocOp.alloc 3, AllocOp.alloc (2 ^ 62 - 1)]).off = 8 := by
  decide

/-- Claim C1 (failing input): on `StackAllocator<int, 24, true>` the
allocate-only request sequence `[3, 2 ^ 62 - 1, 1]` is accepted in full.
The second request's `size_type` byte count `2 ^ 64 - 4` wraps the
capacity check (cursor 12 plus it wraps to `8 ≤ 24`), so it succeeds at
offset 12 and drags the cursor back to 8; the third allocation then lands
at offset 8, inside the first allocation's live region.  The collected
regions of the three successful allocations are neither pairwise disjoint
nor contained in the 24-byte buffer. -/
theorem c1_wrap_regions_overlap :
    (runAllocs 24 4 4 true (defaultCtor 0 bzero) []
        [3, 2 ^ 62 - 1, 1]).2 = [(0, 12), (12, 2 ^ 64 - 4), (8, 4)] ∧
    ¬ (runAllocs 24 4 4 true (defaultCtor 0 bzero) []
        [3, 2 ^ 62 - 1, 1]).2.Pairwise RegionsDisjoint ∧
    ¬ RegionsWithin
        (runAllocs 24 4 4 true (defaultCtor 0 bzero) []
          [3, 2 ^ 62 - 1, 1]).2 24 := by
  decide

end StackAllocator

namespace StackVector

open StackAllocator

/-- Claim C4: a `StackVector<int, 5>` (element size 4, element capacity 5,
packed allocator of 20 bytes) accepts exactly 5 pushes: each of the first
five `push_back` calls succeeds and increments the length by one, the 6th
push fails deterministically — its growth allocation cannot be served by
the full fixed buffer — and after the failed 6th push the length remains
5. -/
theorem c4_capacity_bounded_push :
    (vecPushes 0 bzero 5 4 0).len = 0 ∧
    (vecPush 5 4 (vecPushes 0 bzero 5 4 0)).1 = true ∧
    (vecPushes 0 bzero 5 4 1).len = 1 ∧
    (vecPush 5 4 (vecPushes 0 bzero 5 4 1)).1 = true ∧
    (vecPushes 0 bzero 5 4 2).len = 2 ∧
    (vecPush 5 4 (vecPushes 0 bzero 5 4 2)).1 = true ∧
    (vecPushes 0 bzero 5 4 3).len = 3 ∧
    (vecPush 5 4 (vecPushes 0 bzero 5 4 3)).1 = true ∧
    (vecPushes 0 bzero 5 4 4).len = 4 ∧
    (vecPush 5 4 (vecPushes 0 bzero 5 4 4)).1 = true ∧
    (vecPushes 0 bzero 5 4 5).len = 5 ∧
    (vecPush 5 4 (vecPushes 0 bzero 5 4 5)).1 = false ∧
    (vecPush 5 4 (vecPushes 0 bzero 5 4 5)).2.len = 5 := by
  decide

/-- A freshly constructed `StackVector` has its storage at offset 0 of its
arena, capacity `N`, length 0, and a fully reserved arena (cursor at
`N * sizeof(T)`); the buffer size `N * sizeof(T)` is a C++ object size,
below `2 ^ 64`, so the reservation arithmetic does not wrap. -/
lemma vecInit_eq (addr : Nat) (b : Nat → Nat) (N sz : Nat) (hN : N ≠ 0)
    (hb : N * sz < 2 ^ 64) :
    vecInit addr b N sz = ⟨⟨addr, b, N * sz⟩, 0, N, 0⟩ := by
  have hmod : N * sz % 2 ^ 64 = N * sz := Nat.mod_eq_of_lt hb
  have ha : alignedCursor false 1 (defaultCtor addr b).off = 0 := rfl
  have hguard : ¬ ((alignedCursor false 1 (defaultCtor addr b).off +
      N * sz % 2 ^ 64) % 2 ^ 64 > N * sz) := by
    rw [ha, hmod, Nat.zero_add, hmod]
    omega
  unfold vecInit allocate
  rw [if_neg hN, if_neg hguard, ha, hmod, Nat.zero_add, hmod]
  rfl

/-- Across any number of pushes, the arena stays fully reserved and the
vector keeps its original storage block and capacity: a push with spare
capacity touches neither, and a growth request at full capacity is always
refused by the full fixed buffer (for an instantiable buffer size
`N * sizeof(T) < 2 ^ 62`, the growth request's `size_type` arithmetic
cannot wrap). -/
lemma vecPushes_inv (addr : Nat) (b : Nat → Nat) (N sz : Nat) (hN : 0 < N)
    (hsz : 0 < sz) (hbuf : N * sz < 2 ^ 62) (j : Nat) :
    (vecPushes addr b N sz j).arena.off = N * sz ∧
    (vecPushes addr b N sz j).dataOff = 0 ∧
    (vecPushes addr b N sz j).cap = N := by
  induction j with
  | zero =>
    rw [vecPushes, vecInit_eq addr b N sz (by omega)
      (lt_trans hbuf (by norm_num))]
    exact ⟨rfl, rfl, rfl⟩
  | succ j ih =>
    obtain ⟨h1, h2, h3⟩ := ih
    rw [vecPushes]
    by_cases hlen :
        (vecPushes addr b N sz j).len < (vecPushes addr b N sz j).cap
    · simp only [vecPush, if_pos hlen]
      exact ⟨h1, h2, h3⟩
    · have hmaxN : max (vecPushes addr b N sz j).cap 1 = N := by
        rw [h3]
        exact max_eq_left (by omega)
      have hNsz : 0 < N * sz := Nat.mul_pos hN hsz
      have h2x : (N + N) * sz = 2 * (N * sz) := by ring
      have h62 : (2 : Nat) ^ 62 * 4 = 2 ^ 64 := by norm_num
      have hb64 : (N + N) * sz % 2 ^ 64 = (N + N) * sz :=
        Nat.mod_eq_of_lt (by omega)
      have hs64 : (N * sz + (N + N) * sz) % 2 ^ 64 =
          N * sz + (N + N) * sz := Nat.mod_eq_of_lt (by omega)
      have hn0 : (vecPushes addr b N sz j).cap +
          max (vecPushes addr b N sz j).cap 1 ≠ 0 := by
        rw [hmaxN, h3]
        omega
      have hov : (alignedCursor false 1 (vecPushes addr b N sz j).arena.off +
          ((vecPushes addr b N sz j).cap +
            max (vecPushes addr b N sz j).cap 1) * sz % 2 ^ 64) % 2 ^ 64 >
          N * sz := by
        have ha : alignedCursor false 1 (vecPushes addr b N sz j).arena.off =
            (vecPushes addr b N sz j).arena.off := rfl
        rw [ha, h1, hmaxN, h3, hb64, hs64]
        omega
      simp only [vecPush, if_neg hlen, allocate, if_neg hn0, if_pos hov]
      exact ⟨h1, h2, h3⟩

/-- Claim C8: for a `StackVector<T, N>` — which reserves space for all `N`
elements at construction, its buffer of `N * sizeof(T)` bytes being an
instantiable C++ object size — the storage block never moves and never
grows across any number of `push_back`/`emplace_back` calls, so the
address of every element slot `i` is the same after any number of pushes
as at construction: no reallocation or relocation ever occurs. -/
theorem c8_pointer_stability (N sz : Nat) (hN : 0 < N) (hsz : 0 < sz)
    (hbuf : N * sz < 2 ^ 62) (addr : Nat) (b : Nat → Nat) (j i : Nat) :
    (vecPushes addr b N sz j).dataOff = (vecInit addr b N sz).dataOff ∧
    (vecPushes addr b N sz j).cap = N ∧
    elemAddr sz (vecPushes addr b N sz j) i =
      elemAddr sz (vecInit addr b N sz) i := by
  obtain ⟨h1, h2, h3⟩ := vecPushes_inv addr b N sz hN hsz hbuf j
  have h0 : (vecInit addr b N sz).dataOff = 0 := by
    rw [vecInit_eq addr b N sz (by omega) (lt_trans hbuf (by norm_num))]
  refine ⟨by rw [h2, h0], h3, ?_⟩
  simp [elemAddr, h2, h0]

/-- Claim C8 witness: a `StackVector<int, 5>` after 7 pushes (5 succeed,
the rest fail) still has its storage at the construction-time offset, and
element 3 keeps its address. -/
theorem c8_witness :
    (vecPushes 0 bzero 5 4 7).dataOff = (vecInit 0 bzero 5 4).dataOff ∧
    (vecPushes 0 bzero 5 4 7).cap = 5 ∧
    elemAddr 4 (vecPushes 0 bzero 5 4 7) 3 =
      elemAddr 4 (vecInit 0 bzero 5 4) 3 :=
  c8_pointer_stability 5 4 (by decide) (by decide) (by decide) 0 bzero 7 3

end StackVector
